import Mathlib

/-!
Shallow embedding of `src/data/drift_analysis.py` (function `analyze_drift`):
a one-shot batch drift analysis comparing a reference dataset against the
most recent window of a production dataset, via per-feature two-sample
Kolmogorov–Smirnov tests, aggregated into an overall score, severity tier,
recommendation list and monitoring status, emitted as a single structured
document (or a single error document on any failure).

Python floats are idealised as exact rationals (`ℚ`); the numeric literals
0.05, 0.1, 0.2, 0.3, 0.5 become 1/20, 1/10, 1/5, 3/10, 1/2.  Dataframes are
embedded column-oriented with an explicit row count.
-/

namespace DriftAnalysis

/-- A pandas dataframe, embedded as a row count (`len(df)`) together with its
named columns.  Well-formedness (every column has `nrows` entries) is carried
as a hypothesis where a theorem needs it. -/
structure DataFrame where
  nrows : Nat
  cols : List (String × List ℚ)
deriving DecidableEq

/-- `df.tail(n)` of pandas: keep the last `min(len(df), n)` rows; each column
keeps its last `n` entries (`drop (length - n)`). -/
def DataFrame.tail (df : DataFrame) (n : Nat) : DataFrame :=
  { nrows := min df.nrows n
    cols := df.cols.map (fun c => (c.1, c.2.drop (c.2.length - n))) }

/-- Lines 21–22 of the source: `if len(production_df) > 100:
production_df = production_df.tail(100)`. -/
def window (df : DataFrame) : DataFrame :=
  if df.nrows > 100 then df.tail 100 else df

/-- `df[feature].values`: column access, raising `KeyError` (whose `str` is
the quoted column name) when the column is absent. -/
def getCol (df : DataFrame) (name : String) : Except String (List ℚ) :=
  match df.cols.lookup name with
  | some v => Except.ok v
  | none => Except.error ("KeyError: " ++ name)

/-- Line 25 of the source: the fixed feature list. -/
def featureColumns : List String :=
  ["sepal_length", "sepal_width", "petal_length", "petal_width"]

/-- Empirical cumulative distribution function of a sample at a point:
the fraction of sample values `≤ t`. -/
def ecdf (xs : List ℚ) (t : ℚ) : ℚ :=
  ((xs.countP (fun x => decide (x ≤ t)) : ℚ)) / (xs.length : ℚ)

/-- The two-sample Kolmogorov–Smirnov statistic: the maximum gap between the
two empirical CDFs.  Both ECDFs are step functions jumping only at pooled
sample points, so the supremum over ℝ equals the maximum over the pooled
sample. -/
def ksStat (xs ys : List ℚ) : ℚ :=
  (((xs ++ ys).map (fun t => |ecdf xs t - ecdf ys t|)).foldr max 0)

/-- All ways to split a pooled list into two subsequences (order preserved):
each element goes to the left or the right part. -/
def splits : List ℚ → List (List ℚ × List ℚ)
  | [] => [([], [])]
  | a :: l =>
    (splits l).map (fun p => (a :: p.1, p.2)) ++ (splits l).map (fun p => (p.1, a :: p.2))

/-- Modelled from the spec: `scipy.stats.ks_2samp`'s p-value is external to
this repository; the glossary defines it as the probability of observing a
CDF gap at least as large as the computed statistic under the null hypothesis
that both samples come from one distribution.  We model it as the exact
permutation-null probability: the fraction of the ways of splitting the
pooled sample into parts of the two original sizes whose KS statistic is at
least the observed one. -/
def pValue (xs ys : List ℚ) : ℚ :=
  ((((splits (xs ++ ys)).filter (fun p => decide (p.1.length = xs.length))).filter
      (fun p => decide (ksStat xs ys ≤ ksStat p.1 p.2))).length : ℚ)
    / ((((splits (xs ++ ys)).filter (fun p => decide (p.1.length = xs.length)))).length : ℚ)

/-- Modelled from the spec: `scipy.stats.ks_2samp` itself is external to this
repository.  Per the glossary it yields the statistic `D` (maximum ECDF gap)
and a p-value; per §4.1 it fails on an empty sample. -/
def ks2samp (xs ys : List ℚ) : Except String (ℚ × ℚ) :=
  if xs.length = 0 ∨ ys.length = 0 then
    Except.error "Data passed to ks_2samp must not be empty"
  else
    Except.ok (ksStat xs ys, pValue xs ys)

/-- `np.mean` of a sample. -/
def mean (xs : List ℚ) : ℚ := xs.sum / (xs.length : ℚ)

/-- The square of `np.std` (population standard deviation, `ddof = 0`):
the mean squared deviation.  The source stores the square root of this
value; the root is irrational in general and no claim concerns it, so the
embedding keeps the square. -/
def varPop (xs : List ℚ) : ℚ :=
  (xs.map (fun x => (x - mean xs) * (x - mean xs))).sum / (xs.length : ℚ)

/-- The per-feature record built in lines 48–58 of the source
(`reference_std`/`production_std` kept squared, see `varPop`). -/
structure FeatureDriftResult where
  ks_statistic : ℚ
  p_value : ℚ
  drift_score : ℚ
  is_significant : Bool
  drift_detected : Bool
  reference_mean : ℚ
  production_mean : ℚ
  reference_var : ℚ
  production_var : ℚ
deriving DecidableEq

/-- One iteration of the feature loop (lines 33–58): run the KS test on the
two samples and assemble the `FeatureDriftResult`. -/
def analyzeFeature (ref prod : List ℚ) : Except String FeatureDriftResult := do
  let sp ← ks2samp ref prod
  pure
    { ks_statistic := sp.1
      p_value := sp.2
      drift_score := min (sp.1 * 2) 1
      is_significant := decide (sp.2 < 1/20)
      drift_detected := decide (sp.1 > 1/10)
      reference_mean := mean ref
      production_mean := mean prod
      reference_var := varPop ref
      production_var := varPop prod }

/-- The feature loop of lines 33–58: for each feature, fetch its column from
both dataframes and score it; the first failure aborts the run. -/
def analyzeAll (refDf prodDf : DataFrame) :
    List String → Except String (List (String × FeatureDriftResult))
  | [] => Except.ok []
  | f :: rest => do
    let refData ← getCol refDf f
    let prodData ← getCol prodDf f
    let fr ← analyzeFeature refData prodData
    let tail ← analyzeAll refDf prodDf rest
    pure ((f, fr) :: tail)

/-- The running `significant_drifts` counter of lines 45–47, recovered from
the result list. -/
def sigCount (results : List (String × FeatureDriftResult)) : Nat :=
  results.countP (fun p => p.2.is_significant)

/-- Line 62: `'low' if overall < 0.2 else 'medium' if overall < 0.5 else 'high'`. -/
def driftSeverity (overall : ℚ) : String :=
  if overall < 1/5 then "low" else if overall < 1/2 then "medium" else "high"

/-- Line 90: `'normal' if overall < 0.2 else 'warning' if overall < 0.5 else 'critical'`. -/
def monitoringLevel (overall : ℚ) : String :=
  if overall < 1/5 then "normal" else if overall < 1/2 then "warning" else "critical"

/-- The recommendation strings of lines 66–72. -/
def sigCountMsg (sig : Nat) : String :=
  "🚨 Detected significant drift in " ++ toString sig ++ " feature(s)"

def retrainMsg : String := "Consider retraining the model with recent data"

def monitorMsg : String := "Monitor model performance metrics closely"

def stableMsg : String := "✅ Data distribution is stable"

/-- Lines 65–72 of the source, translated imperatively: start from the empty
list and conditionally append, in order. -/
def buildRecommendations (sig : Nat) (overall : ℚ) : List String :=
  let recs : List String := []
  let recs := if sig > 0 then recs ++ [sigCountMsg sig, retrainMsg] else recs
  let recs := if overall > 3/10 then recs ++ [monitorMsg] else recs
  let recs := if overall < 1/10 then recs ++ [stableMsg] else recs
  recs

/-- Written from the spec's words (§4.3 / claim C7), for refinement: three
independent condition blocks concatenated in fixed order. -/
def recommendationsSpec (sig : Nat) (overall : ℚ) : List String :=
  (if sig > 0 then [sigCountMsg sig, retrainMsg] else [])
    ++ (if overall > 3/10 then [monitorMsg] else [])
    ++ (if overall < 1/10 then [stableMsg] else [])

/-- The per-feature drift scores of a result list, in order. -/
def scoresOf (results : List (String × FeatureDriftResult)) : List ℚ :=
  results.map (fun p => p.2.drift_score)

/-- The success document of lines 75–93 (flattened: `drift_analysis`,
`data_summary`, `recommendations`, `monitoring_status`). -/
structure Report where
  overall_drift_score : ℚ
  drift_severity : String
  significant_drifts : Nat
  total_features : Nat
  feature_analysis : List (String × FeatureDriftResult)
  reference_samples : Nat
  production_samples : Nat
  analysis_limit : Nat
  recommendations : List String
  level : String
  requires_attention : Bool
deriving DecidableEq

/-- Lines 61–93: aggregate the per-feature results into the report.
`prodDf` is the already-windowed production dataframe. -/
def buildReport (refDf prodDf : DataFrame)
    (results : List (String × FeatureDriftResult)) : Report :=
  let overall := (scoresOf results).sum / (featureColumns.length : ℚ)
  let sig := sigCount results
  { overall_drift_score := overall
    drift_severity := driftSeverity overall
    significant_drifts := sig
    total_features := featureColumns.length
    feature_analysis := results
    reference_samples := refDf.nrows
    production_samples := prodDf.nrows
    analysis_limit := 100
    recommendations := buildRecommendations sig overall
    level := monitoringLevel overall
    requires_attention := decide (sig > 0 ∨ overall > 3/10) }

/-- The error document of lines 98–102. -/
structure ErrorDoc where
  error : String
  details : String
  recommendation : String
deriving DecidableEq

/-- The `try` body of `analyze_drift` as an `Except` pipeline: the loader
results are passed in, since file reading is external; the first failure
anywhere aborts the whole run. -/
def runPipeline (refLoad prodLoad : Except String DataFrame) :
    Except String Report := do
  let referenceDf ← refLoad
  let productionDf0 ← prodLoad
  let productionDf := window productionDf0
  let results ← analyzeAll referenceDf productionDf featureColumns
  pure (buildReport referenceDf productionDf results)

/-- The whole of `analyze_drift`: the `try` body, with the catch-all
`except` clause wrapping any failure's message into the single error
document. -/
def analyzeDrift (refLoad prodLoad : Except String DataFrame) :
    Except ErrorDoc Report :=
  match runPipeline refLoad prodLoad with
  | Except.ok r => Except.ok r
  | Except.error e =>
    Except.error
      { error := "Python drift analysis failed"
        details := e
        recommendation := "Check Python environment and required packages (pandas, numpy, scipy)" }

/-! Concrete data for evaluating the pipeline on an explicit input: a
one-row dataframe whose four feature values all equal 1, used both as
reference and (unchanged by windowing) as production data. -/

/-- A one-row dataframe with all four configured features equal to 1. -/
def wRefDf : DataFrame :=
  { nrows := 1
    cols := [("sepal_length", [1]), ("sepal_width", [1]),
             ("petal_length", [1]), ("petal_width", [1])] }

/-- The per-feature result the pipeline computes on two identical
one-element samples. -/
def wFR : FeatureDriftResult :=
  { ks_statistic := 0, p_value := 1, drift_score := 0, is_significant := false,
    drift_detected := false, reference_mean := 1, production_mean := 1,
    reference_var := 0, production_var := 0 }

/-- The per-feature results of the run on `wRefDf` against itself. -/
def wResults : List (String × FeatureDriftResult) :=
  [("sepal_length", wFR), ("sepal_width", wFR), ("petal_length", wFR), ("petal_width", wFR)]

/-- The full report of the run on `wRefDf` against itself. -/
def wReport : Report :=
  { overall_drift_score := 0
    drift_severity := "low"
    significant_drifts := 0
    total_features := 4
    feature_analysis := wResults
    reference_samples := 1
    production_samples := 1
    analysis_limit := 100
    recommendations := [stableMsg]
    level := "normal"
    requires_attention := false }

/-- A 101-row single-column dataframe, for exercising the windowing step. -/
def wTallDf : DataFrame :=
  { nrows := 101, cols := [("sepal_length", List.replicate 101 0)] }

/-! Helper lemmas. -/

lemma except_bind_ok {α β : Type} {x : Except String α} {f : α → Except String β} {b : β} :
    (x >>= f) = Except.ok b ↔ ∃ a, x = Except.ok a ∧ f a = Except.ok b := by
  cases x with
  | error e => simp [Bind.bind, Except.bind]
  | ok a => simp [Bind.bind, Except.bind]

lemma except_pure_ok {α : Type} {a b : α} :
    (pure a : Except String α) = Except.ok b ↔ a = b := by
  simp [Pure.pure, Except.pure]

lemma foldr_max_nonneg (l : List ℚ) : 0 ≤ l.foldr max 0 := by
  induction l with
  | nil => simp
  | cons a l ih => exact le_trans ih (le_max_right a _)

lemma foldr_max_of_zeros {l : List ℚ} (h : ∀ x ∈ l, x = 0) : l.foldr max 0 = 0 := by
  induction l with
  | nil => simp
  | cons a l ih =>
    have ha : a = 0 := h a (List.mem_cons_self a l)
    have hl : l.foldr max 0 = 0 := ih (fun x hx => h x (List.mem_cons_of_mem a hx))
    simp [List.foldr_cons, ha, hl]

lemma ksStat_nonneg (xs ys : List ℚ) : 0 ≤ ksStat xs ys :=
  foldr_max_nonneg _

lemma ksStat_self (xs : List ℚ) : ksStat xs xs = 0 := by
  unfold ksStat
  apply foldr_max_of_zeros
  intro x hx
  rcases List.mem_map.mp hx with ⟨t, _, rfl⟩
  simp

lemma splits_exists_fst_length :
    ∀ (l : List ℚ) (n : ℕ), n ≤ l.length → ∃ p ∈ splits l, p.1.length = n := by
  intro l
  induction l with
  | nil =>
    intro n hn
    have hz : n = 0 := Nat.le_zero.mp (by simpa using hn)
    subst hz
    exact ⟨([], []), by simp [splits]⟩
  | cons a l ih =>
    intro n hn
    cases n with
    | zero =>
      obtain ⟨p, hp, hl⟩ := ih 0 (Nat.zero_le _)
      refine ⟨(p.1, a :: p.2), ?_, hl⟩
      simp only [splits]
      exact List.mem_append_right _ (List.mem_map.mpr ⟨p, hp, rfl⟩)
    | succ m =>
      obtain ⟨p, hp, hl⟩ := ih m (Nat.le_of_succ_le_succ (by simpa using hn))
      refine ⟨(a :: p.1, p.2), ?_, by simp [hl]⟩
      simp only [splits]
      exact List.mem_append_left _ (List.mem_map.mpr ⟨p, hp, rfl⟩)

lemma pValue_self (xs : List ℚ) : pValue xs xs = 1 := by
  unfold pValue
  have hfull : ((splits (xs ++ xs)).filter (fun p => decide (p.1.length = xs.length))).filter
      (fun p => decide (ksStat xs xs ≤ ksStat p.1 p.2)) =
      (splits (xs ++ xs)).filter (fun p => decide (p.1.length = xs.length)) := by
    apply List.filter_eq_self.mpr
    intro p _
    rw [ksStat_self]
    exact decide_eq_true (ksStat_nonneg p.1 p.2)
  rw [hfull]
  have hlen : xs.length ≤ (xs ++ xs).length := by simp
  obtain ⟨p, hp, hl⟩ := splits_exists_fst_length (xs ++ xs) xs.length hlen
  have hmem : p ∈ (splits (xs ++ xs)).filter (fun p => decide (p.1.length = xs.length)) :=
    List.mem_filter.mpr ⟨hp, decide_eq_true hl⟩
  have hpos : ((splits (xs ++ xs)).filter (fun p => decide (p.1.length = xs.length))).length ≠ 0 := by
    intro h0
    rw [List.length_eq_zero] at h0
    rw [h0] at hmem
    simp at hmem
  exact div_self (by exact_mod_cast hpos)

lemma lookup_drop_map (l : List (String × List ℚ)) (n : String) (k : Nat) :
    (l.map (fun c => (c.1, c.2.drop (c.2.length - k)))).lookup n
      = (l.lookup n).map (fun v => v.drop (v.length - k)) := by
  induction l with
  | nil => simp
  | cons c l ih =>
    obtain ⟨key, v⟩ := c
    cases hk : n == key <;> simp [List.lookup, hk, ih]

lemma lookup_mem (l : List (String × List ℚ)) (n : String) (v : List ℚ)
    (h : l.lookup n = some v) : ∃ k, (k, v) ∈ l := by
  induction l with
  | nil => simp at h
  | cons c l ih =>
    obtain ⟨k, w⟩ := c
    cases hk : n == k with
    | true =>
      rw [List.lookup, hk] at h
      have hw : w = v := by simpa using h
      exact ⟨k, by rw [← hw]; exact List.mem_cons_self _ _⟩
    | false =>
      rw [List.lookup, hk] at h
      obtain ⟨k', hk'⟩ := ih h
      exact ⟨k', List.mem_cons_of_mem _ hk'⟩

lemma window_nrows (df : DataFrame) : (window df).nrows = min df.nrows 100 := by
  unfold window DataFrame.tail
  split
  · rfl
  · next hgt => simp at hgt ⊢; omega

lemma window_lookup (df : DataFrame) (h : ∀ c ∈ df.cols, c.2.length = df.nrows)
    (name : String) (vs : List ℚ) (hv : df.cols.lookup name = some vs) :
    (window df).cols.lookup name = some ((vs.reverse.take 100).reverse) := by
  unfold window
  by_cases h100 : df.nrows > 100
  · rw [if_pos h100]
    show (df.cols.map (fun c => (c.1, c.2.drop (c.2.length - 100)))).lookup name = _
    rw [lookup_drop_map, hv]
    have := List.rtake_eq_reverse_take_reverse (l := vs) (n := 100)
    rw [List.rtake] at this
    simp [this]
  · rw [if_neg h100]
    rw [hv]
    obtain ⟨k, hk⟩ := lookup_mem _ _ _ hv
    have hlen : vs.length = df.nrows := h (k, vs) hk
    have hle : vs.reverse.length ≤ 100 := by simp [hlen]; omega
    rw [List.take_of_length_le hle, List.reverse_reverse]

lemma window_id_of_le (df : DataFrame) (h : df.nrows ≤ 100) : window df = df := by
  unfold window
  rw [if_neg (by omega)]

lemma analyzeAll_ok_mem (refDf prodDf : DataFrame) :
    ∀ (fs : List String) (res : List (String × FeatureDriftResult)),
      analyzeAll refDf prodDf fs = Except.ok res →
      ∀ fp ∈ res, fp.1 ∈ fs ∧ ∃ ref prod, getCol refDf fp.1 = Except.ok ref ∧
        getCol prodDf fp.1 = Except.ok prod ∧ analyzeFeature ref prod = Except.ok fp.2 := by
  intro fs
  induction fs with
  | nil =>
    intro res h fp hm
    unfold analyzeAll at h
    rw [Except.ok.injEq] at h
    rw [← h] at hm
    simp at hm
  | cons f rest ih =>
    intro res h fp hm
    unfold analyzeAll at h
    obtain ⟨ref, href, h⟩ := except_bind_ok.mp h
    obtain ⟨prod, hprod, h⟩ := except_bind_ok.mp h
    obtain ⟨fr, hfr, h⟩ := except_bind_ok.mp h
    obtain ⟨tl, htl, h⟩ := except_bind_ok.mp h
    rw [except_pure_ok] at h
    rw [← h] at hm
    rcases List.mem_cons.mp hm with hfp | hfp
    · subst hfp
      exact ⟨List.mem_cons_self f rest, ref, prod, href, hprod, hfr⟩
    · obtain ⟨hin, w⟩ := ih tl htl fp hfp
      exact ⟨List.mem_cons_of_mem f hin, w⟩

lemma analyzeAll_ok_length (refDf prodDf : DataFrame) :
    ∀ (fs : List String) (res : List (String × FeatureDriftResult)),
      analyzeAll refDf prodDf fs = Except.ok res → res.length = fs.length := by
  intro fs
  induction fs with
  | nil =>
    intro res h
    unfold analyzeAll at h
    rw [Except.ok.injEq] at h
    rw [← h]
    rfl
  | cons f rest ih =>
    intro res h
    unfold analyzeAll at h
    obtain ⟨ref, _, h⟩ := except_bind_ok.mp h
    obtain ⟨prod, _, h⟩ := except_bind_ok.mp h
    obtain ⟨fr, _, h⟩ := except_bind_ok.mp h
    obtain ⟨tl, htl, h⟩ := except_bind_ok.mp h
    rw [except_pure_ok] at h
    rw [← h]
    simp [ih tl htl]

lemma analyzeAll_ok_forall (refDf prodDf : DataFrame) :
    ∀ (fs : List String) (res : List (String × FeatureDriftResult)),
      analyzeAll refDf prodDf fs = Except.ok res →
      ∀ f ∈ fs, ∃ ref prod fr, getCol refDf f = Except.ok ref ∧
        getCol prodDf f = Except.ok prod ∧ analyzeFeature ref prod = Except.ok fr := by
  intro fs
  induction fs with
  | nil =>
    intro res _ f hf
    simp at hf
  | cons f rest ih =>
    intro res h g hg
    unfold analyzeAll at h
    obtain ⟨ref, href, h⟩ := except_bind_ok.mp h
    obtain ⟨prod, hprod, h⟩ := except_bind_ok.mp h
    obtain ⟨fr, hfr, h⟩ := except_bind_ok.mp h
    obtain ⟨tl, htl, _⟩ := except_bind_ok.mp h
    rcases List.mem_cons.mp hg with hgf | hgr
    · subst hgf
      exact ⟨ref, prod, fr, href, hprod, hfr⟩
    · exact ih tl htl g hgr

lemma runPipeline_ok_iff (refLoad prodLoad : Except String DataFrame) (r : Report) :
    runPipeline refLoad prodLoad = Except.ok r ↔
      ∃ refDf prodDf res, refLoad = Except.ok refDf ∧ prodLoad = Except.ok prodDf ∧
        analyzeAll refDf (window prodDf) featureColumns = Except.ok res ∧
        r = buildReport refDf (window prodDf) res := by
  unfold runPipeline
  constructor
  · intro h
    obtain ⟨refDf, hr, h⟩ := except_bind_ok.mp h
    obtain ⟨prodDf, hp, h⟩ := except_bind_ok.mp h
    obtain ⟨res, hres, h⟩ := except_bind_ok.mp h
    rw [except_pure_ok] at h
    exact ⟨refDf, prodDf, res, hr, hp, hres, h.symm⟩
  · rintro ⟨refDf, prodDf, res, rfl, rfl, hres, rfl⟩
    exact except_bind_ok.mpr ⟨refDf, rfl, except_bind_ok.mpr ⟨prodDf, rfl,
      except_bind_ok.mpr ⟨res, hres, except_pure_ok.mpr rfl⟩⟩⟩

lemma analyzeDrift_ok_iff (refLoad prodLoad : Except String DataFrame) (r : Report) :
    analyzeDrift refLoad prodLoad = Except.ok r ↔
      runPipeline refLoad prodLoad = Except.ok r := by
  unfold analyzeDrift
  cases h : runPipeline refLoad prodLoad with
  | error s => constructor <;> intro hh <;> exact absurd hh (by simp)
  | ok a => simp

lemma analyzeDrift_error_fields (refLoad prodLoad : Except String DataFrame)
    (e : ErrorDoc) (h : analyzeDrift refLoad prodLoad = Except.error e) :
    e.error = "Python drift analysis failed" ∧
    e.recommendation = "Check Python environment and required packages (pandas, numpy, scipy)" := by
  unfold analyzeDrift at h
  cases hr : runPipeline refLoad prodLoad with
  | ok r => rw [hr] at h; simp at h
  | error s =>
    rw [hr] at h
    rw [Except.error.injEq] at h
    rw [← h]
    exact ⟨rfl, rfl⟩

lemma analyzeFeature_ok_iff (ref prod : List ℚ) (fr : FeatureDriftResult) :
    analyzeFeature ref prod = Except.ok fr ↔
      ref ≠ [] ∧ prod ≠ [] ∧
      fr = { ks_statistic := ksStat ref prod
             p_value := pValue ref prod
             drift_score := min (ksStat ref prod * 2) 1
             is_significant := decide (pValue ref prod < 1/20)
             drift_detected := decide (ksStat ref prod > 1/10)
             reference_mean := mean ref
             production_mean := mean prod
             reference_var := varPop ref
             production_var := varPop prod } := by
  unfold analyzeFeature ks2samp
  by_cases hemp : ref.length = 0 ∨ prod.length = 0
  · rw [if_pos hemp]
    simp only [List.length_eq_zero] at hemp
    constructor
    · intro h
      exact absurd h (by simp [Bind.bind, Except.bind])
    · rintro ⟨h1, h2, _⟩
      rcases hemp with h | h
      · exact absurd h h1
      · exact absurd h h2
  · rw [if_neg hemp]
    push_neg at hemp
    have h1 : ref ≠ [] := fun hh => hemp.1 (by simp [hh])
    have h2 : prod ≠ [] := fun hh => hemp.2 (by simp [hh])
    simp [Bind.bind, Except.bind, Pure.pure, Except.pure, h1, h2, eq_comm]

/-! Evaluation of the pipeline on the concrete run `wRefDf` vs `wRefDf`. -/

lemma wFeat : analyzeFeature [(1:ℚ)] [1] = Except.ok wFR := by
  norm_num [analyzeFeature, ks2samp, pValue, splits, ksStat, ecdf, mean, varPop, wFR]

lemma wWin : window wRefDf = wRefDf := rfl

lemma wCol1 : getCol wRefDf "sepal_length" = Except.ok [1] := rfl

lemma wCol2 : getCol wRefDf "sepal_width" = Except.ok [1] := rfl

lemma wCol3 : getCol wRefDf "petal_length" = Except.ok [1] := rfl

lemma wCol4 : getCol wRefDf "petal_width" = Except.ok [1] := rfl

lemma wAll : analyzeAll wRefDf wRefDf featureColumns = Except.ok wResults := by
  simp [analyzeAll, featureColumns, wCol1, wCol2, wCol3, wCol4, wFeat, wResults,
    Bind.bind, Except.bind, Pure.pure, Except.pure]

lemma wBuild : buildReport wRefDf wRefDf wResults = wReport := by
  norm_num [buildReport, scoresOf, wResults, wFR, wReport, wRefDf, featureColumns, sigCount,
    driftSeverity, monitoringLevel, buildRecommendations, stableMsg]

lemma wRun : analyzeDrift (Except.ok wRefDf) (Except.ok wRefDf) = Except.ok wReport := by
  have : runPipeline (Except.ok wRefDf) (Except.ok wRefDf) = Except.ok wReport := by
    simp [runPipeline, wWin, wAll, wBuild, Bind.bind, Except.bind, Pure.pure, Except.pure]
  exact (analyzeDrift_ok_iff _ _ _).mpr this

lemma window_lookup_none (df : DataFrame) (n : String)
    (h : df.cols.lookup n = none) : (window df).cols.lookup n = none := by
  unfold window
  split
  · show (df.cols.map (fun c => (c.1, c.2.drop (c.2.length - 100)))).lookup n = none
    rw [lookup_drop_map, h]
    rfl
  · exact h

lemma getCol_ok_lookup (df : DataFrame) (n : String) (v : List ℚ)
    (h : getCol df n = Except.ok v) : df.cols.lookup n = some v := by
  unfold getCol at h
  cases hl : df.cols.lookup n <;> rw [hl] at h
  · simp at h
  · simpa using h

lemma buildRecs_eq_spec (sig : Nat) (overall : ℚ) :
    buildRecommendations sig overall = recommendationsSpec sig overall := by
  unfold buildRecommendations recommendationsSpec
  split_ifs <;> simp

lemma level_severity (x : ℚ) :
    (monitoringLevel x = "normal" ↔ driftSeverity x = "low") ∧
    (monitoringLevel x = "warning" ↔ driftSeverity x = "medium") ∧
    (monitoringLevel x = "critical" ↔ driftSeverity x = "high") := by
  unfold monitoringLevel driftSeverity
  split_ifs <;> simp

/-! The claims. -/

/-- C1: every `FeatureDriftResult` of a successful run satisfies all three
policy equations simultaneously — `drift_score = min(statistic * 2, 1)`
(hence `drift_score ∈ [0, 1]`), `is_significant = (p_value < 0.05)` and
`drift_detected = (statistic > 0.1)` — where the statistic and p-value come
from the two-sample KS test on that feature's reference column and windowed
production column. -/
theorem claim_C1 (refDf prodDf : DataFrame) (r : Report)
    (h : analyzeDrift (Except.ok refDf) (Except.ok prodDf) = Except.ok r)
    (f : String) (fr : FeatureDriftResult) (hm : (f, fr) ∈ r.feature_analysis)
    (ref prod : List ℚ)
    (href : getCol refDf f = Except.ok ref)
    (hprod : getCol (window prodDf) f = Except.ok prod) :
    fr.drift_score = min (fr.ks_statistic * 2) 1 ∧
    0 ≤ fr.drift_score ∧ fr.drift_score ≤ 1 ∧
    (fr.is_significant = true ↔ fr.p_value < 1/20) ∧
    (fr.drift_detected = true ↔ fr.ks_statistic > 1/10) ∧
    fr.ks_statistic = ksStat ref prod ∧ fr.p_value = pValue ref prod := by
  rw [analyzeDrift_ok_iff, runPipeline_ok_iff] at h
  obtain ⟨refDf2, prodDf2, res, hr, hp, hall, hrep⟩ := h
  rw [Except.ok.injEq] at hr hp
  subst hr
  subst hp
  have hfa : r.feature_analysis = res := by rw [hrep]; rfl
  obtain ⟨hmf, ref2, prod2, href2, hprod2, hfeat⟩ :=
    analyzeAll_ok_mem refDf (window prodDf) featureColumns res hall (f, fr) (hfa ▸ hm)
  rw [href2] at href
  rw [hprod2] at hprod
  rw [Except.ok.injEq] at href hprod
  subst href
  subst hprod
  rw [analyzeFeature_ok_iff] at hfeat
  obtain ⟨hne1, hne2, hfr⟩ := hfeat
  subst hfr
  refine ⟨rfl, ?_, ?_, ?_, ?_, rfl, rfl⟩
  · exact le_min (mul_nonneg (ksStat_nonneg _ _) (by norm_num)) (by norm_num)
  · exact min_le_right _ _
  · simp
  · simp

/-- Witness for C1: the concrete run of `wRefDf` against itself, at feature
`sepal_length`, whose samples are both `[1]`. -/
theorem claim_C1_witness :
    wFR.drift_score = min (wFR.ks_statistic * 2) 1 ∧
    0 ≤ wFR.drift_score ∧ wFR.drift_score ≤ 1 ∧
    (wFR.is_significant = true ↔ wFR.p_value < 1/20) ∧
    (wFR.drift_detected = true ↔ wFR.ks_statistic > 1/10) ∧
    wFR.ks_statistic = ksStat [1] [1] ∧ wFR.p_value = pValue [1] [1] :=
  claim_C1 wRefDf wRefDf wReport wRun "sepal_length" wFR
    (by simp [wReport, wResults]) [1] [1] wCol1 (by rw [wWin]; exact wCol1)

/-- C2: `overall_drift_score` of a successful run is the unweighted
arithmetic mean of the four per-feature drift scores. -/
theorem claim_C2 (refDf prodDf : DataFrame) (r : Report)
    (h : analyzeDrift (Except.ok refDf) (Except.ok prodDf) = Except.ok r) :
    r.overall_drift_score = (scoresOf r.feature_analysis).sum / 4 ∧
    r.feature_analysis.length = 4 ∧
    r.total_features = 4 := by
  rw [analyzeDrift_ok_iff, runPipeline_ok_iff] at h
  obtain ⟨refDf2, prodDf2, res, hr, hp, hall, hrep⟩ := h
  subst hrep
  refine ⟨?_, ?_, rfl⟩
  · show (scoresOf res).sum / ((featureColumns.length : ℕ) : ℚ) = (scoresOf res).sum / 4
    norm_num [featureColumns]
  · simpa using analyzeAll_ok_length refDf2 (window prodDf2) featureColumns res hall

/-- Witness for C2: the concrete run of `wRefDf` against itself. -/
theorem claim_C2_witness :
    wReport.overall_drift_score = (scoresOf wReport.feature_analysis).sum / 4 ∧
    wReport.feature_analysis.length = 4 ∧
    wReport.total_features = 4 :=
  claim_C2 wRefDf wRefDf wReport wRun

/-- C3: severity tiers — `low` strictly below 0.2, `medium` from 0.2
(inclusive) to 0.5 (exclusive), `high` from 0.5 (inclusive); in particular
exactly 0.2 gives `medium` and exactly 0.5 gives `high`; and a successful
run's `drift_severity` is exactly this function of its overall score. -/
theorem claim_C3 (x : ℚ) (refLoad prodLoad : Except String DataFrame) (r : Report)
    (h : analyzeDrift refLoad prodLoad = Except.ok r) :
    (x < 1/5 → driftSeverity x = "low") ∧
    (1/5 ≤ x → x < 1/2 → driftSeverity x = "medium") ∧
    (1/2 ≤ x → driftSeverity x = "high") ∧
    driftSeverity (1/5) = "medium" ∧
    driftSeverity (1/2) = "high" ∧
    r.drift_severity = driftSeverity r.overall_drift_score := by
  refine ⟨?_, ?_, ?_, by norm_num [driftSeverity], by norm_num [driftSeverity], ?_⟩
  · intro hx
    unfold driftSeverity
    rw [if_pos hx]
  · intro hx1 hx2
    unfold driftSeverity
    rw [if_neg (not_lt.mpr hx1), if_pos hx2]
  · intro hx
    unfold driftSeverity
    rw [if_neg (by linarith), if_neg (not_lt.mpr hx)]
  · rw [analyzeDrift_ok_iff, runPipeline_ok_iff] at h
    obtain ⟨refDf2, prodDf2, res, hr, hp, hall, hrep⟩ := h
    subst hrep
    rfl

/-- Witness for C3: 0.1 is classified `low`, and severity of the concrete
run's report is the tier function of its overall score. -/
theorem claim_C3_witness :
    driftSeverity (1/10) = "low" ∧
    wReport.drift_severity = driftSeverity wReport.overall_drift_score :=
  ⟨(claim_C3 (1/10) (Except.ok wRefDf) (Except.ok wRefDf) wReport wRun).1 (by norm_num),
   (claim_C3 (1/10) (Except.ok wRefDf) (Except.ok wRefDf) wReport wRun).2.2.2.2.2⟩

/-- C4: all-or-nothing output — any failure (unreadable source, missing
feature column such as `petal_width`, statistical test failing e.g. on an
empty sample) yields the single error document with the fixed `error` and
`recommendation` fields, never a partial report; and a successful report
implies every stage (both loads and the whole per-feature loop) succeeded. -/
theorem claim_C4 (refLoad prodLoad : Except String DataFrame) (e : ErrorDoc)
    (r : Report) (refDf prodDf : DataFrame) (s : String) :
    (analyzeDrift refLoad prodLoad = Except.error e →
      e.error = "Python drift analysis failed" ∧
      e.recommendation = "Check Python environment and required packages (pandas, numpy, scipy)") ∧
    (refLoad = Except.error s →
      analyzeDrift refLoad prodLoad = Except.error
        { error := "Python drift analysis failed", details := s,
          recommendation := "Check Python environment and required packages (pandas, numpy, scipy)" }) ∧
    (prodLoad = Except.ok prodDf → prodDf.cols.lookup "petal_width" = none →
      analyzeDrift refLoad prodLoad ≠ Except.ok r) ∧
    (refLoad = Except.ok refDf → refDf.cols.lookup "sepal_length" = some [] →
      analyzeDrift refLoad prodLoad ≠ Except.ok r) ∧
    (analyzeDrift refLoad prodLoad = Except.ok r →
      refLoad.isOk = true ∧ prodLoad.isOk = true) ∧
    (analyzeDrift refLoad prodLoad = Except.ok r →
      refLoad = Except.ok refDf → prodLoad = Except.ok prodDf →
      analyzeAll refDf (window prodDf) featureColumns = Except.ok r.feature_analysis) := by
  refine ⟨analyzeDrift_error_fields refLoad prodLoad e, ?_, ?_, ?_, ?_, ?_⟩
  · intro hs
    subst hs
    rfl
  · intro hp hnone hok
    rw [analyzeDrift_ok_iff, runPipeline_ok_iff] at hok
    obtain ⟨refDf2, prodDf2, res, hr2, hp2, hall, _⟩ := hok
    rw [hp] at hp2
    rw [Except.ok.injEq] at hp2
    subst hp2
    obtain ⟨ref2, prod2, fr2, _, hcol, _⟩ :=
      analyzeAll_ok_forall refDf2 (window prodDf) featureColumns res hall
        "petal_width" (by simp [featureColumns])
    have := getCol_ok_lookup _ _ _ hcol
    rw [window_lookup_none prodDf _ hnone] at this
    exact Option.noConfusion this
  · intro hr hsome hok
    rw [analyzeDrift_ok_iff, runPipeline_ok_iff] at hok
    obtain ⟨refDf2, prodDf2, res, hr2, hp2, hall, _⟩ := hok
    rw [hr] at hr2
    rw [Except.ok.injEq] at hr2
    subst hr2
    obtain ⟨ref2, prod2, fr2, hcol, _, hfeat⟩ :=
      analyzeAll_ok_forall refDf (window prodDf2) featureColumns res hall
        "sepal_length" (by simp [featureColumns])
    have hlk := getCol_ok_lookup _ _ _ hcol
    rw [hsome] at hlk
    rw [Option.some.injEq] at hlk
    rw [analyzeFeature_ok_iff] at hfeat
    exact hfeat.1 hlk.symm
  · intro hok
    rw [analyzeDrift_ok_iff, runPipeline_ok_iff] at hok
    obtain ⟨refDf2, prodDf2, res, hr2, hp2, _, _⟩ := hok
    rw [hr2, hp2]
    exact ⟨rfl, rfl⟩
  · intro hok hr hp
    rw [analyzeDrift_ok_iff, runPipeline_ok_iff] at hok
    obtain ⟨refDf2, prodDf2, res, hr2, hp2, hall, hrep⟩ := hok
    rw [hr] at hr2
    rw [hp] at hp2
    rw [Except.ok.injEq] at hr2 hp2
    subst hr2
    subst hp2
    have hfa : r.feature_analysis = res := by rw [hrep]; rfl
    rw [hfa]
    exact hall

/-- Witness for C4: a failed reference load surfaces as exactly the error
document carrying the load failure's message. -/
theorem claim_C4_witness :
    analyzeDrift (Except.error "boom") (Except.ok wRefDf) = Except.error
      { error := "Python drift analysis failed", details := "boom",
        recommendation := "Check Python environment and required packages (pandas, numpy, scipy)" } :=
  (claim_C4 (Except.error "boom") (Except.ok wRefDf)
      { error := "Python drift analysis failed", details := "boom",
        recommendation := "Check Python environment and required packages (pandas, numpy, scipy)" }
      wReport wRefDf wRefDf "boom").2.1 rfl

/-- C5: windowing keeps exactly the last `min(n, 100)` rows of the
production dataset by input order (all rows when `n ≤ 100`, where the
dataframe is returned unchanged), and the reference dataset is passed to the
scoring loop unwindowed. -/
theorem claim_C5 (df : DataFrame) (hwf : ∀ c ∈ df.cols, c.2.length = df.nrows)
    (name : String) (vs : List ℚ) (hv : df.cols.lookup name = some vs)
    (refDf prodDf : DataFrame) (r : Report) :
    (window df).nrows = min df.nrows 100 ∧
    (window df).cols.lookup name = some ((vs.reverse.take 100).reverse) ∧
    (df.nrows ≤ 100 → window df = df) ∧
    (analyzeDrift (Except.ok refDf) (Except.ok prodDf) = Except.ok r →
      analyzeAll refDf (window prodDf) featureColumns = Except.ok r.feature_analysis ∧
      r.reference_samples = refDf.nrows) := by
  refine ⟨window_nrows df, window_lookup df hwf name vs hv, window_id_of_le df, ?_⟩
  intro hok
  rw [analyzeDrift_ok_iff, runPipeline_ok_iff] at hok
  obtain ⟨refDf2, prodDf2, res, hr2, hp2, hall, hrep⟩ := hok
  rw [Except.ok.injEq] at hr2 hp2
  subst hr2
  subst hp2
  have hfa : r.feature_analysis = res := by rw [hrep]; rfl
  have hrs : r.reference_samples = refDf.nrows := by rw [hrep]; rfl
  rw [hfa]
  exact ⟨hall, hrs⟩

/-- Witness for C5: a 101-row production dataframe is cut to its last 100
rows; the concrete run's report keeps the full reference row count. -/
theorem claim_C5_witness :
    (window wTallDf).nrows = min wTallDf.nrows 100 ∧
    (window wTallDf).cols.lookup "sepal_length"
      = some (((List.replicate 101 (0:ℚ)).reverse.take 100).reverse) ∧
    (wTallDf.nrows ≤ 100 → window wTallDf = wTallDf) ∧
    (analyzeAll wRefDf (window wRefDf) featureColumns = Except.ok wReport.feature_analysis ∧
      wReport.reference_samples = wRefDf.nrows) :=
  ⟨(claim_C5 wTallDf (by simp [wTallDf]) "sepal_length" (List.replicate 101 0)
      (by simp [wTallDf, List.lookup]) wRefDf wRefDf wReport).1,
   (claim_C5 wTallDf (by simp [wTallDf]) "sepal_length" (List.replicate 101 0)
      (by simp [wTallDf, List.lookup]) wRefDf wRefDf wReport).2.1,
   (claim_C5 wTallDf (by simp [wTallDf]) "sepal_length" (List.replicate 101 0)
      (by simp [wTallDf, List.lookup]) wRefDf wRefDf wReport).2.2.1,
   (claim_C5 wTallDf (by simp [wTallDf]) "sepal_length" (List.replicate 101 0)
      (by simp [wTallDf, List.lookup]) wRefDf wRefDf wReport).2.2.2 wRun⟩

/-- C6: `monitoring_status.requires_attention` of a successful run is true
iff the count of features flagged significant is positive or the overall
drift score strictly exceeds 0.3. -/
theorem claim_C6 (refLoad prodLoad : Except String DataFrame) (r : Report)
    (h : analyzeDrift refLoad prodLoad = Except.ok r) :
    (r.requires_attention = true ↔
      (0 < sigCount r.feature_analysis ∨ 3/10 < r.overall_drift_score)) ∧
    r.significant_drifts = sigCount r.feature_analysis := by
  rw [analyzeDrift_ok_iff, runPipeline_ok_iff] at h
  obtain ⟨refDf2, prodDf2, res, hr2, hp2, hall, hrep⟩ := h
  subst hrep
  constructor
  · have hfa : (buildReport refDf2 (window prodDf2) res).feature_analysis = res := rfl
    have hov : (buildReport refDf2 (window prodDf2) res).overall_drift_score
        = (scoresOf res).sum / ((featureColumns.length : ℕ) : ℚ) := rfl
    rw [hfa, hov]
    show decide (sigCount res > 0 ∨ (scoresOf res).sum / ((featureColumns.length : ℕ) : ℚ) > 3/10)
        = true ↔ _
    simp
  · rfl

/-- Witness for C6: the concrete run of `wRefDf` against itself. -/
theorem claim_C6_witness :
    (wReport.requires_attention = true ↔
      (0 < sigCount wReport.feature_analysis ∨ 3/10 < wReport.overall_drift_score)) ∧
    wReport.significant_drifts = sigCount wReport.feature_analysis :=
  claim_C6 (Except.ok wRefDf) (Except.ok wRefDf) wReport wRun

/-- C7 (amended): the recommendation list is the fixed-order concatenation
of the three independent condition blocks (two entries for significant
drift, one for `overall > 0.3`, one for `overall < 0.1`); the conditions
are not mutually exclusive branches and any subset of them may fire, except
that the `overall > 0.3` and `overall < 0.1` conditions exclude each other
(so all three can never fire together). -/
theorem claim_C7 (sig : Nat) (overall : ℚ) (refLoad prodLoad : Except String DataFrame)
    (r : Report) (h : analyzeDrift refLoad prodLoad = Except.ok r) :
    buildRecommendations sig overall = recommendationsSpec sig overall ∧
    r.recommendations = recommendationsSpec r.significant_drifts r.overall_drift_score ∧
    recommendationsSpec 0 (1/5) = [] ∧
    recommendationsSpec 2 (1/5) = [sigCountMsg 2, retrainMsg] ∧
    recommendationsSpec 0 (2/5) = [monitorMsg] ∧
    recommendationsSpec 0 0 = [stableMsg] ∧
    recommendationsSpec 1 (2/5) = [sigCountMsg 1, retrainMsg, monitorMsg] ∧
    recommendationsSpec 1 0 = [sigCountMsg 1, retrainMsg, stableMsg] := by
  refine ⟨buildRecs_eq_spec sig overall, ?_,
    by norm_num [recommendationsSpec], by norm_num [recommendationsSpec],
    by norm_num [recommendationsSpec], by norm_num [recommendationsSpec],
    by norm_num [recommendationsSpec], by norm_num [recommendationsSpec]⟩
  rw [analyzeDrift_ok_iff, runPipeline_ok_iff] at h
  obtain ⟨refDf2, prodDf2, res, hr2, hp2, hall, hrep⟩ := h
  subst hrep
  show buildRecommendations (sigCount res) _ = _
  rw [buildRecs_eq_spec]
  rfl

/-- Counterexample for C7 as stated: the three conditions can never all
fire — no input makes the recommendation list reach the four entries that
all three blocks together would produce, because `overall > 0.3` and
`overall < 0.1` are mutually exclusive. -/
theorem claim_C7_counterexample :
    (∃ (sig : Nat) (overall : ℚ), (buildRecommendations sig overall).length = 4) ↔ False := by
  constructor
  · rintro ⟨sig, overall, h⟩
    revert h
    unfold buildRecommendations
    split_ifs with h1 h2 h3 h3 h2 h3 h3 <;> simp <;> linarith
  · exact False.elim

/-- Witness for C7: one subset instance (the significant-drift block alone
at `overall = 2/5` joined by the monitor block), and the concrete run's
report recommendations. -/
theorem claim_C7_witness :
    buildRecommendations 1 (2/5) = recommendationsSpec 1 (2/5) ∧
    wReport.recommendations
      = recommendationsSpec wReport.significant_drifts wReport.overall_drift_score :=
  ⟨(claim_C7 1 (2/5) (Except.ok wRefDf) (Except.ok wRefDf) wReport wRun).1,
   (claim_C7 1 (2/5) (Except.ok wRefDf) (Except.ok wRefDf) wReport wRun).2.1⟩

/-- C8: `monitoring_status.level` mirrors the severity tiers with the same
0.2/0.5 boundaries — `normal` exactly when severity is `low`, `warning`
exactly when `medium`, `critical` exactly when `high`. -/
theorem claim_C8 (refLoad prodLoad : Except String DataFrame) (r : Report)
    (h : analyzeDrift refLoad prodLoad = Except.ok r) :
    r.level = monitoringLevel r.overall_drift_score ∧
    (r.level = "normal" ↔ r.drift_severity = "low") ∧
    (r.level = "warning" ↔ r.drift_severity = "medium") ∧
    (r.level = "critical" ↔ r.drift_severity = "high") := by
  rw [analyzeDrift_ok_iff, runPipeline_ok_iff] at h
  obtain ⟨refDf2, prodDf2, res, hr2, hp2, hall, hrep⟩ := h
  subst hrep
  have hl : (buildReport refDf2 (window prodDf2) res).level
      = monitoringLevel ((buildReport refDf2 (window prodDf2) res).overall_drift_score) := rfl
  have hs : (buildReport refDf2 (window prodDf2) res).drift_severity
      = driftSeverity ((buildReport refDf2 (window prodDf2) res).overall_drift_score) := rfl
  rw [hl, hs]
  exact ⟨rfl, (level_severity _).1, (level_severity _).2.1, (level_severity _).2.2⟩

/-- Witness for C8: the concrete run of `wRefDf` against itself. -/
theorem claim_C8_witness :
    wReport.level = monitoringLevel wReport.overall_drift_score ∧
    (wReport.level = "normal" ↔ wReport.drift_severity = "low") ∧
    (wReport.level = "warning" ↔ wReport.drift_severity = "medium") ∧
    (wReport.level = "critical" ↔ wReport.drift_severity = "high") :=
  claim_C8 (Except.ok wRefDf) (Except.ok wRefDf) wReport wRun

/-- C9: on identical (nonempty) samples the KS statistic is 0, the p-value
is 1, and the per-feature scorer reports drift score 0 with both flags
false. -/
theorem claim_C9 (xs : List ℚ) (h : xs ≠ []) :
    ksStat xs xs = 0 ∧ pValue xs xs = 1 ∧
    analyzeFeature xs xs = Except.ok
      { ks_statistic := 0, p_value := 1, drift_score := 0, is_significant := false,
        drift_detected := false, reference_mean := mean xs, production_mean := mean xs,
        reference_var := varPop xs, production_var := varPop xs } := by
  refine ⟨ksStat_self xs, pValue_self xs, ?_⟩
  rw [analyzeFeature_ok_iff]
  refine ⟨h, h, ?_⟩
  rw [ksStat_self, pValue_self]
  norm_num

/-- Witness for C9: the one-element sample `[1]`. -/
theorem claim_C9_witness :
    ksStat [(1:ℚ)] [1] = 0 ∧ pValue [(1:ℚ)] [1] = 1 ∧
    analyzeFeature [(1:ℚ)] [1] = Except.ok
      { ks_statistic := 0, p_value := 1, drift_score := 0, is_significant := false,
        drift_detected := false, reference_mean := mean [1], production_mean := mean [1],
        reference_var := varPop [1], production_var := varPop [1] } :=
  claim_C9 [1] (by simp)

/-- C10: a successful run's `data_summary` reports the post-windowing
production row count (`min(original, 100)`), the full reference row count,
and the constant analysis limit 100. -/
theorem claim_C10 (refDf prodDf : DataFrame) (r : Report)
    (h : analyzeDrift (Except.ok refDf) (Except.ok prodDf) = Except.ok r) :
    r.production_samples = min prodDf.nrows 100 ∧
    r.reference_samples = refDf.nrows ∧
    r.analysis_limit = 100 := by
  rw [analyzeDrift_ok_iff, runPipeline_ok_iff] at h
  obtain ⟨refDf2, prodDf2, res, hr2, hp2, hall, hrep⟩ := h
  rw [Except.ok.injEq] at hr2 hp2
  subst hr2
  subst hp2
  subst hrep
  exact ⟨window_nrows prodDf, rfl, rfl⟩

/-- Witness for C10: the concrete run of `wRefDf` against itself. -/
theorem claim_C10_witness :
    wReport.production_samples = min wRefDf.nrows 100 ∧
    wReport.reference_samples = wRefDf.nrows ∧
    wReport.analysis_limit = 100 :=
  claim_C10 wRefDf wRefDf wReport wRun

end DriftAnalysis
